import Mathlib

/-!
Verification development for the nonlinear conjugate-gradient driver of
`src/nlcglib.cpp` (namespace `nlcglib`).

The driver consists of two template functions, `nlcg` (lines 53-233) and
`nlcg_us` (lines 282-480), plus the exported entry points for the
host/device execution placements (lines 592-765).  Both drivers share the
same control flow line for line; they differ only in which external
field-level operations fill in the numeric values (geodesic vs
geodesic_us, conjugatex vs conjugatex_us, preconditioners, overlap),
and in some logging inside the `catch` block of `nlcg_us` which has no
effect on the returned value.

The embedding below models the driver's control flow exactly.  All
per-iteration values produced by the external collaborators (the energy
model, the gradient engine, the line search, the distributed inner-product
reductions) are supplied through oracles (`InitData`, `StepData`): the
driver only branches on the scalars they return and stores the opaque
field values (of an abstract type `V`).  Scalars computed by the external
code are modelled as rationals; the claims checked here are about control
flow and state mutation order, not floating-point rounding.

C++ exceptions are modelled by dedicated result constructors:
`std::runtime_error` throws unwind to the caller (the driver has no
handler for them; its only handler is `catch (DescentError&)`).
-/

namespace Nlcglib

/-- The run summary `nlcg_info` returned by the drivers (fields assigned by
`print_info`, lines 43-47: free energy `F`, entropy `S`,
`tolerance = slope_x + slope_eta`, iteration count `iter`). -/
structure nlcg_info where
  F : ℚ
  S : ℚ
  tolerance : ℚ
  iter : ℕ
deriving DecidableEq

/-- `print_info` (lines 33-50): builds the `nlcg_info` summary from the
current free energy, KS energy, entropy, the two slope components and the
step index.  The KS energy is only logged, not stored. -/
def print_info (free_energy ks_energy entropy slope_x slope_eta : ℚ) (step : ℕ) : nlcg_info :=
  { F := free_energy, S := entropy, tolerance := slope_x + slope_eta, iter := step }

/-- Observable state of the external `FreeEnergy` model: the values the
driver reads through `get_F()`, `ks_energy()`, `get_entropy()`. -/
structure Model where
  F : ℚ
  ks : ℚ
  entropy : ℚ
deriving DecidableEq

/-- The driver's persistent loop state: the conjugate direction pair
`Z_x`/`Z_eta` (lines 119-120), the saved scalar `fr` (line 130), the slope
components `slope_x_eta` (line 123; the scalar `slope` is always their
sum, line 124), the `force_restart` flag (line 138), the summary variable
`info` (line 58) and the current observable model state. -/
structure LoopState (V : Type) where
  Z_x : V
  Z_eta : V
  fr : ℚ
  slope_x_eta : ℚ × ℚ
  force_restart : Bool
  info : nlcg_info
  model : Model
deriving DecidableEq

/-- The scalar `slope` maintained by the driver: always the sum of the two
components of `slope_x_eta` (lines 124, 207, 217, 356, 442, 452). -/
def slopeOf {V : Type} (st : LoopState V) : ℚ :=
  st.slope_x_eta.1 + st.slope_x_eta.2

/-- Per-iteration values supplied by the external collaborators during one
loop body execution (lines 155-225): whether the line search throws
`DescentError`, the model state after the accepted step, the fresh
steepest directions `delta_x`/`delta_eta`, the rotation maps `rotateX`
`rotateEta` applied to the previous direction (lines 182-183), the reduced
inner product `fr_new = compute_slope_single(g_X, delta_x, g_eta,
delta_eta)` (line 185), the conjugation operators (lines 201-203; for
`nlcg_us` the overlap-weighted `conjugatex_us`, line 436), and the slope
reduction `compute_slope(g_X, ., g_eta, .)` as a function of the direction
pair it is applied to (lines 206, 216). -/
structure StepData (V : Type) where
  lsFails : Bool
  modelNew : Model
  delta_x : V
  delta_eta : V
  rotateX : V → V
  rotateEta : V → V
  fr_new : ℚ
  conjugatex : V → V → ℚ → V
  conjugateeta : V → V → ℚ → V
  compute_slope : V → V → ℚ × ℚ

/-- The restart condition `i % restart == 0 || force_restart`, written
twice in the source (lines 193 and 210, resp. 428 and 445). -/
def isRestart (restart i : ℕ) (flag : Bool) : Bool :=
  (i % restart == 0) || flag

/-- Result of the conjugate-direction update (lines 182-204): the new
direction pair, the new value of `fr`, and `gamma = fr_new / fr_old`. -/
structure DirUpdate (V : Type) where
  Z_x : V
  Z_eta : V
  fr : ℚ
  gamma : ℚ
deriving DecidableEq

/-- The conjugate-direction update, lines 182-204 (resp. 417-439):
`gamma = fr_new / fr` and `fr := fr_new` unconditionally (lines 189-190);
then on `i % restart == 0 || force_restart` the direction is reset to
exact copies of the fresh steepest pair (lines 196-198), otherwise it is
the conjugation of the fresh steepest pair with the rotated previous
direction and `gamma` (lines 201-203). -/
def directionUpdate {V : Type} (restart i : ℕ) (d : StepData V) (st : LoopState V) :
    DirUpdate V :=
  if isRestart restart i st.force_restart then
    { Z_x := d.delta_x, Z_eta := d.delta_eta, fr := d.fr_new, gamma := d.fr_new / st.fr }
  else
    { Z_x := d.conjugatex d.delta_x (d.rotateX st.Z_x) (d.fr_new / st.fr),
      Z_eta := d.conjugateeta d.delta_eta (d.rotateEta st.Z_eta) (d.fr_new / st.fr),
      fr := d.fr_new, gamma := d.fr_new / st.fr }

/-- Outcome of one loop body execution.  `next` continues the loop;
`converged` is the `return info` at line 151; `descentStop` is the
`return info` inside `catch (DescentError&)` at line 228; the two fatal
constructors are the uncaught `std::runtime_error` throws at lines 187 and
211, carrying the values of the persistent variables at the throw
point. -/
inductive BodyResult (V : Type) where
  | next : LoopState V → BodyResult V
  | converged : LoopState V → BodyResult V
  | descentStop : LoopState V → BodyResult V
  | fatalIncreasingSlope : LoopState V → BodyResult V
  | fatalNoDescent : LoopState V → BodyResult V
deriving DecidableEq

/-- The slope components recomputed at line 206 (resp. 441) from the new
gradient and the just-updated conjugate direction pair. -/
def recombinedSlope {V : Type} (restart i : ℕ) (d : StepData V) (st : LoopState V) :
    ℚ × ℚ :=
  d.compute_slope (directionUpdate restart i d st).Z_x (directionUpdate restart i d st).Z_eta

/-- The slope components recomputed at line 216 (resp. 451) after the
forced reset of the direction to the fresh steepest pair. -/
def steepestSlope {V : Type} (d : StepData V) : ℚ × ℚ :=
  d.compute_slope d.delta_x d.delta_eta

/-- One execution of the loop body for step `i` (lines 140-229, resp.
372-476): convergence check first (lines 144-152); then the line search,
whose `DescentError` is caught and ends the run with the current `info`
(lines 226-229); then the `fr_new > 0` fatal check (lines 186-188) before
`gamma`, `fr` and the direction pair are touched; then the
conjugate-direction update (lines 189-204); then the recomputed slope with
its restart guard (lines 206-218): on a nonnegative recomputed slope a
restart iteration throws (line 211), a non-restart iteration resets the
direction to the steepest pair and recomputes the slope once more (lines
213-217) — without assigning `force_restart`; finally the summary update
(line 220). -/
def iterStep {V : Type} (tol : ℚ) (restart i : ℕ) (d : StepData V) (st : LoopState V) :
    BodyResult V :=
  if |slopeOf st| < tol then
    BodyResult.converged
      { st with info := (print_info st.model.F st.model.ks st.model.entropy
          st.slope_x_eta.1 st.slope_x_eta.2 i) }
  else if d.lsFails then
    BodyResult.descentStop st
  else if 0 < d.fr_new then
    BodyResult.fatalIncreasingSlope { st with model := d.modelNew }
  else if 0 ≤ (recombinedSlope restart i d st).1 + (recombinedSlope restart i d st).2 then
    if isRestart restart i st.force_restart then
      BodyResult.fatalNoDescent
        { st with
          Z_x := (directionUpdate restart i d st).Z_x
          Z_eta := (directionUpdate restart i d st).Z_eta
          fr := (directionUpdate restart i d st).fr
          slope_x_eta := recombinedSlope restart i d st
          model := d.modelNew }
    else
      BodyResult.next
        { st with
          Z_x := d.delta_x
          Z_eta := d.delta_eta
          fr := (directionUpdate restart i d st).fr
          slope_x_eta := steepestSlope d
          model := d.modelNew
          info := (print_info d.modelNew.F d.modelNew.ks d.modelNew.entropy
            (steepestSlope d).1 (steepestSlope d).2 i) }
  else
    BodyResult.next
      { st with
        Z_x := (directionUpdate restart i d st).Z_x
        Z_eta := (directionUpdate restart i d st).Z_eta
        fr := (directionUpdate restart i d st).fr
        slope_x_eta := recombinedSlope restart i d st
        model := d.modelNew
        info := (print_info d.modelNew.F d.modelNew.ks d.modelNew.entropy
          (recombinedSlope restart i d st).1 (recombinedSlope restart i d st).2 i) }

/-- Result of a whole run.  `converged`, `descentStop` and
`maxiterReached` are the three normal `return info` paths (lines 151, 228,
232); the fatal constructors are uncaught exceptions unwinding to the
caller; `initAbort` is the throw at line 127 (resp. 359), before the loop
is entered. -/
inductive RunResult (V : Type) where
  | converged : nlcg_info → RunResult V
  | descentStop : nlcg_info → RunResult V
  | maxiterReached : nlcg_info → RunResult V
  | fatalIncreasingSlope : LoopState V → RunResult V
  | fatalNoDescent : LoopState V → RunResult V
  | initAbort : RunResult V
deriving DecidableEq

/-- The iteration loop `for (int i = 1; i < maxiter+1; ++i)` (line 139),
run from step index `i` with `fuel` remaining steps; falling off the end
of the loop returns the current `info` (line 232). -/
def runFrom {V : Type} (tol : ℚ) (restart : ℕ) (data : ℕ → StepData V) :
    ℕ → ℕ → LoopState V → RunResult V
  | 0, _, st => RunResult.maxiterReached st.info
  | fuel + 1, i, st =>
    match iterStep tol restart i (data i) st with
    | BodyResult.next st2 => runFrom tol restart data fuel (i + 1) st2
    | BodyResult.converged st2 => RunResult.converged st2.info
    | BodyResult.descentStop st2 => RunResult.descentStop st2.info
    | BodyResult.fatalIncreasingSlope st2 => RunResult.fatalIncreasingSlope st2
    | BodyResult.fatalNoDescent st2 => RunResult.fatalNoDescent st2

/-- Values computed during initialization (lines 94-130): the initial
steepest pair `delta_x`/`delta_eta`, the slope reduction, the initial
`fr` (line 130, read only after the initial slope check passes), and the
initial observable model state. -/
structure InitData (V : Type) where
  delta_x : V
  delta_eta : V
  compute_slope : V → V → ℚ × ℚ
  fr0 : ℚ
  model0 : Model

/-- The loop state at entry of the loop (lines 119-138): the direction
pair is initialized to copies of the steepest pair (lines 119-120), the
slope is computed from it (line 123), `force_restart` starts `false`
(line 138), and `info` is the default-constructed `nlcg_info` declared at
function entry (line 58), modelled by the parameter `info0`. -/
def initState {V : Type} (info0 : nlcg_info) (init : InitData V) : LoopState V :=
  { Z_x := init.delta_x, Z_eta := init.delta_eta, fr := init.fr0,
    slope_x_eta := init.compute_slope init.delta_x init.delta_eta,
    force_restart := false, info := info0, model := init.model0 }

/-- The shared driver control flow of `nlcg` and `nlcg_us`: initial slope
check (lines 126-128, resp. 358-360) aborting before the loop, then the
iteration loop starting at `i = 1` with at most `maxiter` steps. -/
def nlcgDriver {V : Type} (tol : ℚ) (restart maxiter : ℕ) (info0 : nlcg_info)
    (init : InitData V) (data : ℕ → StepData V) : RunResult V :=
  if 0 ≤ slopeOf (initState info0 init) then RunResult.initAbort
  else runFrom tol restart data maxiter 1 (initState info0 init)

/-- The standard driver `nlcg` (lines 53-233).  The external operations
(Teter preconditioner, `geodesic`, `conjugatex`) enter only through the
oracles. -/
def nlcg {V : Type} (tol : ℚ) (restart maxiter : ℕ) (info0 : nlcg_info)
    (init : InitData V) (data : ℕ → StepData V) : RunResult V :=
  nlcgDriver tol restart maxiter info0 init data

/-- The ultrasoft driver `nlcg_us` (lines 282-480).  Its control flow is
identical to `nlcg`; the ultrasoft operations (overlap `S`, ultrasoft
preconditioner, `geodesic_us`, `conjugatex_us`) enter only through the
oracles, and the extra logging in its `catch` block (lines 462-473) does
not change the returned value. -/
def nlcg_us {V : Type} (tol : ℚ) (restart maxiter : ℕ) (info0 : nlcg_info)
    (init : InitData V) (data : ℕ → StepData V) : RunResult V :=
  nlcgDriver tol restart maxiter info0 init data

/-! ### Exported entry points (lines 592-765)

Each exported function selects memory/execution spaces for the template
drivers.  The device-placement variants are guarded by
`#ifdef __NLCGLIB__CUDA`: when the library was not compiled with CUDA
their entire body is `throw std::runtime_error("recompile nlcglib with
CUDA.")`, so nothing is computed and the energy model is never touched.
The flag `cudaEnabled` models whether `__NLCGLIB__CUDA` was defined at
build time. -/

/-- The configuration error thrown by the device entry points when the
CUDA path is not compiled: `std::runtime_error("recompile nlcglib with
CUDA.")` (lines 611, 634, 658, 681, 732, 763). -/
inductive ConfigError where
  | cudaNotCompiled
deriving DecidableEq

/-- The arguments handed to a driver call by an entry point: the scalar
parameters (`smearing`, `temp`, `kappa`, `tau` influence only the oracle
values and are folded into them) and the external-collaborator
oracles. -/
structure EntryArgs (V : Type) where
  tol : ℚ
  restart : ℕ
  maxiter : ℕ
  info0 : nlcg_info
  init : InitData V
  data : ℕ → StepData V

/-- `nlcg_mvp2_cpu` (lines 592-600): always runs on the host. -/
def nlcg_mvp2_cpu {V : Type} (a : EntryArgs V) : Except ConfigError (RunResult V) :=
  Except.ok (nlcg a.tol a.restart a.maxiter a.info0 a.init a.data)

/-- `nlcg_mvp2_device` (lines 602-613). -/
def nlcg_mvp2_device {V : Type} (cudaEnabled : Bool) (a : EntryArgs V) :
    Except ConfigError (RunResult V) :=
  if cudaEnabled then Except.ok (nlcg a.tol a.restart a.maxiter a.info0 a.init a.data)
  else Except.error ConfigError.cudaNotCompiled

/-- `nlcg_mvp2_device_cpu` (lines 618-636). -/
def nlcg_mvp2_device_cpu {V : Type} (cudaEnabled : Bool) (a : EntryArgs V) :
    Except ConfigError (RunResult V) :=
  if cudaEnabled then Except.ok (nlcg a.tol a.restart a.maxiter a.info0 a.init a.data)
  else Except.error ConfigError.cudaNotCompiled

/-- `nlcg_mvp2_cpu_device` (lines 641-660). -/
def nlcg_mvp2_cpu_device {V : Type} (cudaEnabled : Bool) (a : EntryArgs V) :
    Except ConfigError (RunResult V) :=
  if cudaEnabled then Except.ok (nlcg a.tol a.restart a.maxiter a.info0 a.init a.data)
  else Except.error ConfigError.cudaNotCompiled

/-- `nlcg_us_cpu` (lines 685-705): always runs on the host. -/
def nlcg_us_cpu {V : Type} (a : EntryArgs V) : Except ConfigError (RunResult V) :=
  Except.ok (nlcg_us a.tol a.restart a.maxiter a.info0 a.init a.data)

/-- `nlcg_us_device` (lines 662-683). -/
def nlcg_us_device {V : Type} (cudaEnabled : Bool) (a : EntryArgs V) :
    Except ConfigError (RunResult V) :=
  if cudaEnabled then Except.ok (nlcg_us a.tol a.restart a.maxiter a.info0 a.init a.data)
  else Except.error ConfigError.cudaNotCompiled

/-- `nlcg_us_device_cpu` (lines 710-734). -/
def nlcg_us_device_cpu {V : Type} (cudaEnabled : Bool) (a : EntryArgs V) :
    Except ConfigError (RunResult V) :=
  if cudaEnabled then Except.ok (nlcg_us a.tol a.restart a.maxiter a.info0 a.init a.data)
  else Except.error ConfigError.cudaNotCompiled

/-- `nlcg_us_cpu_device` (lines 736-765). -/
def nlcg_us_cpu_device {V : Type} (cudaEnabled : Bool) (a : EntryArgs V) :
    Except ConfigError (RunResult V) :=
  if cudaEnabled then Except.ok (nlcg_us a.tol a.restart a.maxiter a.info0 a.init a.data)
  else Except.error ConfigError.cudaNotCompiled

/-! ### Occupation-field refresh inside the main loop (claim C10)

Both loops read the occupation field with `auto fni = free_energy.get_fn()`
(line 169 resp. 402) after the line search; what that call returns is
determined by how the geodesic retraction (`geodesic` in `geodesic.hpp`
for `nlcg`, `geodesic_us` for `nlcg_us`) updates the model's occupation
state — code that is not part of `src/nlcglib.cpp`.  The comment at line
168 of `nlcg` reads `// updated fn is missing!!`. -/

/-- Occupation-relevant state of the physics model: per-k-point band
energies `ek` and occupation numbers `fn`. -/
structure PhysState where
  ek : List ℚ
  fn : List ℚ
deriving DecidableEq

/-- `free_energy.get_fn()` (line 169 resp. 402): reads the model's
current occupation field. -/
def get_fn (s : PhysState) : List ℚ := s.fn

/-- Modelled from the spec: the standard-variant geodesic retraction
(`geodesic`, in `geodesic.hpp`, not under `src/`) drives the model to the
accepted trial point, updating the band energies; per the spec's design
note, in the standard variant the occupation field is *not* re-derived
from the updated band energies inside the main loop (`// updated fn is
missing!!`, line 168). -/
def geodesicStep (s : PhysState) (ekNew : List ℚ) : PhysState :=
  { ek := ekNew, fn := s.fn }

/-- Modelled from the spec: the ultrasoft-variant geodesic retraction
(`geodesic_us`, not under `src/`) drives the model to the accepted trial
point and refreshes the occupation field from the updated band energies
through the smearing function every iteration. -/
def geodesicUsStep (smear : ℚ → ℚ) (s : PhysState) (ekNew : List ℚ) : PhysState :=
  { ek := ekNew, fn := List.map smear ekNew }

/-! ### Result accessors and concrete fixtures

The accessors project the persistent-state fields out of a result; the
fixtures are small concrete instantiations (with `V := ℚ`) used to
evaluate the embedded driver on explicit inputs. -/

/-- The loop state carried by an uncaught increasing-slope abort
(line 187), `none` for every other outcome. -/
def fatalIncState {V : Type} : RunResult V → Option (LoopState V)
  | RunResult.fatalIncreasingSlope st => some st
  | _ => none

/-- The successor loop state of a normally completed iteration, `none`
for every other outcome. -/
def nextStateOf {V : Type} : BodyResult V → Option (LoopState V)
  | BodyResult.next st => some st
  | _ => none

/-- Fixture: an observable model state. -/
def mEx : Model := { F := 10, ks := 9, entropy := 1 }

/-- Fixture: a default-constructed summary. -/
def infoEx : nlcg_info := { F := 0, S := 0, tolerance := 0, iter := 0 }

/-- Fixture: a loop state with strictly negative slope `-1`. -/
def stEx : LoopState ℚ :=
  { Z_x := 1, Z_eta := 1, fr := -1, slope_x_eta := (-1, 0),
    force_restart := false, info := infoEx, model := mEx }

/-- Fixture: a loop state whose slope `0` already satisfies any positive
tolerance. -/
def stConvEx : LoopState ℚ :=
  { stEx with slope_x_eta := (0, 0) }

/-- Fixture: a loop state carrying the summary emitted at iteration 2. -/
def stPrevEx : LoopState ℚ :=
  { stEx with info := print_info 8 7 1 (-1) 0 2 }

/-- Fixture: step data for a successful line search with
`fr_new = -1`; its slope reduction is `(-1, 0)` exactly on the fresh
steepest pair `(2, 3)` and `(1, 0)` elsewhere, so the recombined
direction has nonnegative slope while the steepest direction
descends. -/
def dEx : StepData ℚ :=
  { lsFails := false
    modelNew := { F := 8, ks := 7, entropy := 1 }
    delta_x := 2
    delta_eta := 3
    rotateX := fun z => z
    rotateEta := fun z => z
    fr_new := -1
    conjugatex := fun dlt z g => dlt + g * z
    conjugateeta := fun dlt z g => dlt + g * z
    compute_slope := fun zx ze => if zx = 2 ∧ ze = 3 then (-1, 0) else (1, 0) }

/-- Fixture: step data with a strictly positive `fr_new`. -/
def dExPos : StepData ℚ := { dEx with fr_new := 1 }

/-- Fixture: step data whose line search throws `DescentError`. -/
def dExFail : StepData ℚ := { dEx with lsFails := true }

/-- Fixture: the constant oracle returning `dEx` each iteration. -/
def dataExBase : ℕ → StepData ℚ := fun _ => dEx

/-- Fixture: the constant oracle returning `dExPos` each iteration. -/
def dataExPos : ℕ → StepData ℚ := fun _ => dExPos

/-- Fixture: the constant oracle returning `dExFail` each iteration. -/
def dataExFail : ℕ → StepData ℚ := fun _ => dExFail

/-- Fixture: an oracle differing from `dataExBase` only at step 3. -/
def dataEx1 : ℕ → StepData ℚ := fun j => if j = 3 then dExPos else dEx

/-- Fixture: initialization data with initial slope `-1`. -/
def initEx : InitData ℚ :=
  { delta_x := 2
    delta_eta := 3
    compute_slope := fun zx ze => if zx = 2 ∧ ze = 3 then (-1, 0) else (1, 0)
    fr0 := -1
    model0 := mEx }

/-- Fixture: initialization data with ascending initial slope `1`. -/
def initExBad : InitData ℚ :=
  { initEx with compute_slope := fun _ _ => (1, 0) }

/-- Fixture: a smearing function. -/
def smearEx : ℚ → ℚ := fun e => e / 2

/-- Fixture: a physics-model occupation state. -/
def physEx : PhysState := { ek := [0], fn := [0] }

/-! ### Theorems -/

/-- Helper: the loop consults the per-step oracle only at the step
indices it can actually execute — runs over oracles agreeing on steps
`i, ..., i + fuel - 1` coincide. -/
theorem runFrom_succ {V : Type} (tol : ℚ) (restart : ℕ) (data : ℕ → StepData V)
    (fuel i : ℕ) (st : LoopState V) :
    runFrom tol restart data (fuel + 1) i st =
      match iterStep tol restart i (data i) st with
      | BodyResult.next st2 => runFrom tol restart data fuel (i + 1) st2
      | BodyResult.converged st2 => RunResult.converged st2.info
      | BodyResult.descentStop st2 => RunResult.descentStop st2.info
      | BodyResult.fatalIncreasingSlope st2 => RunResult.fatalIncreasingSlope st2
      | BodyResult.fatalNoDescent st2 => RunResult.fatalNoDescent st2 := rfl

theorem runFrom_congr {V : Type} (tol : ℚ) (restart : ℕ) (d1 d2 : ℕ → StepData V) :
    ∀ (fuel i : ℕ) (st : LoopState V),
      (∀ j, i ≤ j → j < i + fuel → d1 j = d2 j) →
      runFrom tol restart d1 fuel i st = runFrom tol restart d2 fuel i st := by
  intro fuel
  induction fuel with
  | zero => intro i st _; rfl
  | succ n ih =>
    intro i st h
    have hi : d1 i = d2 i := h i (le_refl i) (by omega)
    rw [runFrom_succ, runFrom_succ, hi]
    cases iterStep tol restart i (d2 i) st with
    | next st2 => exact ih (i + 1) st2 (fun j h1 h2 => h j (by omega) (by omega))
    | converged st2 => rfl
    | descentStop st2 => rfl
    | fatalIncreasingSlope st2 => rfl
    | fatalNoDescent st2 => rfl

/-- Helper: the loop body's outcome when the convergence check fails,
the line search succeeds and `fr_new > 0`: the uncaught throw of line
187, before `gamma`, `fr` or the direction pair are touched. -/
theorem iterStep_fatalInc {V : Type} (tol : ℚ) (restart i : ℕ) (d : StepData V)
    (st : LoopState V) (hconv : ¬ |slopeOf st| < tol) (hls : d.lsFails = false)
    (hfr : 0 < d.fr_new) :
    iterStep tol restart i d st =
      BodyResult.fatalIncreasingSlope { st with model := d.modelNew } := by
  unfold iterStep
  rw [if_neg hconv, hls]
  simp only [Bool.false_eq_true, if_false]
  rw [if_pos hfr]

/-- Helper: the loop body's outcome when the convergence check fires. -/
theorem iterStep_converged {V : Type} (tol : ℚ) (restart i : ℕ) (d : StepData V)
    (st : LoopState V) (hconv : |slopeOf st| < tol) :
    iterStep tol restart i d st =
      BodyResult.converged
        { st with info := (print_info st.model.F st.model.ks st.model.entropy
            st.slope_x_eta.1 st.slope_x_eta.2 i) } := by
  unfold iterStep
  rw [if_pos hconv]

/-- Helper: the loop body's outcome when the convergence check fails and
the line search throws `DescentError`. -/
theorem iterStep_descentStop {V : Type} (tol : ℚ) (restart i : ℕ) (d : StepData V)
    (st : LoopState V) (hconv : ¬ |slopeOf st| < tol) (hls : d.lsFails = true) :
    iterStep tol restart i d st = BodyResult.descentStop st := by
  unfold iterStep
  rw [if_neg hconv, hls, if_pos rfl]

/-- **C1.** In the main loop of both variants (`nlcg` and `nlcg_us`,
which share this loop body verbatim), if `fr_new` — the reduced inner
product of the fresh gradient with the fresh steepest direction — is
strictly positive at the point of computing `gamma`, the run aborts with
the uncaught `std::runtime_error` of line 187 (resp. 422), and at the
throw point the persistent conjugate-direction state `Z_x`, `Z_eta` and
the saved scalar `fr` still hold their values from the previous
iteration. -/
theorem fr_new_positive_fatal_preserves_direction_state {V : Type}
    (tol : ℚ) (restart fuel i : ℕ) (data : ℕ → StepData V) (st : LoopState V)
    (hconv : ¬ |slopeOf st| < tol) (hls : (data i).lsFails = false)
    (hfr : 0 < (data i).fr_new) :
    Option.map LoopState.Z_x
        (fatalIncState (runFrom tol restart data (fuel + 1) i st)) = some st.Z_x ∧
    Option.map LoopState.Z_eta
        (fatalIncState (runFrom tol restart data (fuel + 1) i st)) = some st.Z_eta ∧
    Option.map LoopState.fr
        (fatalIncState (runFrom tol restart data (fuel + 1) i st)) = some st.fr := by
  rw [runFrom_succ, iterStep_fatalInc tol restart i (data i) st hconv hls hfr]
  exact ⟨rfl, rfl, rfl⟩

/-- Witness for C1 at a concrete input. -/
theorem fr_new_positive_fatal_preserves_direction_state_witness :
    (¬ |slopeOf stEx| < (1/2 : ℚ)) ∧ (dataExPos 1).lsFails = false ∧
    0 < (dataExPos 1).fr_new ∧
    Option.map LoopState.Z_x
        (fatalIncState (runFrom (1/2 : ℚ) 5 dataExPos 1 1 stEx)) = some 1 :=
  ⟨by norm_num [slopeOf, stEx], rfl, by norm_num [dataExPos, dExPos],
    (fr_new_positive_fatal_preserves_direction_state (1/2 : ℚ) 5 0 1 dataExPos stEx
      (by norm_num [slopeOf, stEx]) rfl (by norm_num [dataExPos, dExPos])).1⟩

/-- **C4.** If `|slope| < tol` at the top of iteration `i`, the run
returns at iteration `i` with the CONVERGED summary built by
`print_info` (free energy, entropy, tolerance = sum of the slope
components, iteration index `i`); the oracle `data` is universally
quantified and never consulted, so no line search, gradient
recomputation or further iteration executes after that point. -/
theorem convergence_check_returns_immediately {V : Type}
    (tol : ℚ) (restart fuel i : ℕ) (data : ℕ → StepData V) (st : LoopState V)
    (hconv : |slopeOf st| < tol) :
    runFrom tol restart data (fuel + 1) i st =
      RunResult.converged (print_info st.model.F st.model.ks st.model.entropy
        st.slope_x_eta.1 st.slope_x_eta.2 i) := by
  rw [runFrom_succ, iterStep_converged tol restart i (data i) st hconv]

/-- Witness for C4 at a concrete input. -/
theorem convergence_check_returns_immediately_witness :
    |slopeOf stConvEx| < (1/2 : ℚ) ∧
    runFrom (1/2 : ℚ) 5 dataExBase 4 1 stConvEx =
      RunResult.converged (print_info 10 9 1 0 0 1) :=
  ⟨by norm_num [slopeOf, stConvEx, stEx],
    convergence_check_returns_immediately (1/2 : ℚ) 5 3 1 dataExBase stConvEx
      (by norm_num [slopeOf, stConvEx, stEx])⟩

/-- **C5.** When the geodesic line search throws `DescentError` at
iteration `i` (and the convergence check did not fire), the driver
catches it (lines 226-229 resp. 461-476), terminates the run and returns
the summary `info` last emitted by a previous iteration — a normal
return value, not an exception. -/
theorem descent_failure_returns_previous_summary {V : Type}
    (tol : ℚ) (restart fuel i : ℕ) (data : ℕ → StepData V) (st : LoopState V)
    (hconv : ¬ |slopeOf st| < tol) (hls : (data i).lsFails = true) :
    runFrom tol restart data (fuel + 1) i st = RunResult.descentStop st.info := by
  rw [runFrom_succ, iterStep_descentStop tol restart i (data i) st hconv hls]

/-- Witness for C5: a failure at iteration 3 returns the summary
produced at iteration 2. -/
theorem descent_failure_returns_previous_summary_witness :
    (¬ |slopeOf stPrevEx| < (1/2 : ℚ)) ∧ (dataExFail 3).lsFails = true ∧
    runFrom (1/2 : ℚ) 5 dataExFail 8 3 stPrevEx =
      RunResult.descentStop (print_info 8 7 1 (-1) 0 2) :=
  ⟨by norm_num [slopeOf, stPrevEx, stEx], rfl,
    descent_failure_returns_previous_summary (1/2 : ℚ) 5 7 3 dataExFail stPrevEx
      (by norm_num [slopeOf, stPrevEx, stEx]) rfl⟩

/-- Helper: under the slope guard (recomputed slope nonnegative) at a
restart iteration, the loop body throws the uncaught `std::runtime_error`
of line 211. -/
theorem iterStep_slope_guard_fatal {V : Type} (tol : ℚ) (restart i : ℕ) (d : StepData V)
    (st : LoopState V) (hconv : ¬ |slopeOf st| < tol) (hls : d.lsFails = false)
    (hfr : ¬ 0 < d.fr_new)
    (hslope : 0 ≤ (recombinedSlope restart i d st).1 + (recombinedSlope restart i d st).2)
    (hrest : isRestart restart i st.force_restart = true) :
    iterStep tol restart i d st = BodyResult.fatalNoDescent
      { st with
        Z_x := (directionUpdate restart i d st).Z_x
        Z_eta := (directionUpdate restart i d st).Z_eta
        fr := (directionUpdate restart i d st).fr
        slope_x_eta := recombinedSlope restart i d st
        model := d.modelNew } := by
  unfold iterStep
  rw [if_neg hconv, hls]
  simp only [Bool.false_eq_true, if_false]
  rw [if_neg hfr, if_pos hslope, hrest, if_pos rfl]

/-- Helper: under the slope guard at a non-restart iteration, the loop
body resets the direction to the fresh steepest pair, recomputes the
slope from it, and continues (lines 212-217) — `force_restart` is not
assigned. -/
theorem iterStep_slope_guard_next {V : Type} (tol : ℚ) (restart i : ℕ) (d : StepData V)
    (st : LoopState V) (hconv : ¬ |slopeOf st| < tol) (hls : d.lsFails = false)
    (hfr : ¬ 0 < d.fr_new)
    (hslope : 0 ≤ (recombinedSlope restart i d st).1 + (recombinedSlope restart i d st).2)
    (hrest : isRestart restart i st.force_restart = false) :
    iterStep tol restart i d st = BodyResult.next
      { st with
        Z_x := d.delta_x
        Z_eta := d.delta_eta
        fr := (directionUpdate restart i d st).fr
        slope_x_eta := steepestSlope d
        model := d.modelNew
        info := (print_info d.modelNew.F d.modelNew.ks d.modelNew.entropy
          (steepestSlope d).1 (steepestSlope d).2 i) } := by
  unfold iterStep
  rw [if_neg hconv, hls]
  simp only [Bool.false_eq_true, if_false]
  rw [if_neg hfr, if_pos hslope, hrest]
  simp only [Bool.false_eq_true, if_false]

/-- **C2, counterexample.** At the concrete non-restart iteration
`i = 2` (with `restart = 5`, `force_restart = false`) where the
recomputed slope after the conjugate-direction update is nonnegative,
the driver does reset the direction to the fresh steepest pair
(`Z_x = delta_x = 2`) and recompute the slope from it (`(-1, 0)`), but
the state handed to the next iteration still carries
`force_restart = false`: the claim's "sets the forced-restart flag (so
the next line-search call observes forced-restart = true)" is false of
the code — `force_restart` is initialized at line 138 (resp. 370) and
never assigned anywhere. -/
theorem slope_guard_does_not_set_force_restart :
    Option.map LoopState.force_restart (nextStateOf (iterStep (1/2 : ℚ) 5 2 dEx stEx)) =
      some false ∧
    Option.map LoopState.Z_x (nextStateOf (iterStep (1/2 : ℚ) 5 2 dEx stEx)) = some 2 ∧
    Option.map LoopState.slope_x_eta (nextStateOf (iterStep (1/2 : ℚ) 5 2 dEx stEx)) =
      some (-1, 0) ∧
    isRestart 5 2 stEx.force_restart = false := by
  have h := iterStep_slope_guard_next (1/2 : ℚ) 5 2 dEx stEx
    (by norm_num [slopeOf, stEx])
    rfl
    (by norm_num [dEx])
    (by norm_num [recombinedSlope, directionUpdate, isRestart, dEx, stEx])
    (by simp [isRestart, stEx])
  rw [h]
  refine ⟨rfl, rfl, ?_, by simp [isRestart, stEx]⟩
  simp only [nextStateOf, Option.map]
  norm_num [steepestSlope, dEx]

/-- **C2 (amended).** At every iteration, after the conjugate-direction
update, if the recomputed slope is nonnegative then: when the iteration
is a restart iteration (`i % restart == 0` or the forced-restart flag is
set) the run fatally aborts (uncaught throw, line 211); otherwise the
driver hard-restarts the direction to the fresh steepest-descent pair
and recomputes the slope once more from that restarted direction — but
it does **not** set the forced-restart flag: `force_restart` keeps its
value (it is never assigned anywhere in the run, so the next line-search
call observes `forced-restart = false`). -/
theorem slope_guard_restart_policy {V : Type} (tol : ℚ) (restart i : ℕ) (d : StepData V)
    (st : LoopState V) (hconv : ¬ |slopeOf st| < tol) (hls : d.lsFails = false)
    (hfr : ¬ 0 < d.fr_new)
    (hslope : 0 ≤ (recombinedSlope restart i d st).1 + (recombinedSlope restart i d st).2) :
    (isRestart restart i st.force_restart = true →
      iterStep tol restart i d st = BodyResult.fatalNoDescent
        { st with
          Z_x := (directionUpdate restart i d st).Z_x
          Z_eta := (directionUpdate restart i d st).Z_eta
          fr := (directionUpdate restart i d st).fr
          slope_x_eta := recombinedSlope restart i d st
          model := d.modelNew }) ∧
    (isRestart restart i st.force_restart = false →
      iterStep tol restart i d st = BodyResult.next
        { st with
          Z_x := d.delta_x
          Z_eta := d.delta_eta
          fr := (directionUpdate restart i d st).fr
          slope_x_eta := steepestSlope d
          model := d.modelNew
          info := (print_info d.modelNew.F d.modelNew.ks d.modelNew.entropy
            (steepestSlope d).1 (steepestSlope d).2 i) } ∧
      Option.map LoopState.force_restart (nextStateOf (iterStep tol restart i d st)) =
        some false) := by
  constructor
  · intro hrest
    exact iterStep_slope_guard_fatal tol restart i d st hconv hls hfr hslope hrest
  · intro hrest
    have hflag : st.force_restart = false := by
      cases hb : st.force_restart
      · rfl
      · rw [isRestart, hb, Bool.or_true] at hrest
        exact absurd hrest (by simp)
    refine ⟨iterStep_slope_guard_next tol restart i d st hconv hls hfr hslope hrest, ?_⟩
    rw [iterStep_slope_guard_next tol restart i d st hconv hls hfr hslope hrest]
    simp [nextStateOf, hflag]

/-- Witness for C2 (amended) at a concrete input. -/
theorem slope_guard_restart_policy_witness :
    isRestart 5 2 stEx.force_restart = false ∧
    Option.map LoopState.force_restart (nextStateOf (iterStep (1/2 : ℚ) 5 2 dEx stEx)) =
      some false :=
  ⟨by simp [isRestart, stEx],
    ((slope_guard_restart_policy (1/2 : ℚ) 5 2 dEx stEx
        (by norm_num [slopeOf, stEx])
        rfl
        (by norm_num [dEx])
        (by norm_num [recombinedSlope, directionUpdate, isRestart, dEx, stEx])).2
      (by simp [isRestart, stEx])).2⟩

/-- **C3.** The conjugate-direction update (lines 189-204, resp.
424-439) hard-restarts the persistent pair to exact copies of the fresh
steepest pair — with no contribution from the previous direction —
exactly when `i % restart == 0` or the forced-restart flag is set; in
all other iterations it recombines the fresh steepest pair with the
transported previous direction using `gamma = fr_new / fr_old`, and in
both cases `fr_old` is then updated to `fr_new`. -/
theorem conjugate_direction_update_policy {V : Type} (restart i : ℕ)
    (d : StepData V) (st : LoopState V) :
    (isRestart restart i st.force_restart = true →
      directionUpdate restart i d st =
        { Z_x := d.delta_x, Z_eta := d.delta_eta, fr := d.fr_new,
          gamma := d.fr_new / st.fr }) ∧
    (isRestart restart i st.force_restart = false →
      directionUpdate restart i d st =
        { Z_x := d.conjugatex d.delta_x (d.rotateX st.Z_x) (d.fr_new / st.fr),
          Z_eta := d.conjugateeta d.delta_eta (d.rotateEta st.Z_eta) (d.fr_new / st.fr),
          fr := d.fr_new, gamma := d.fr_new / st.fr }) := by
  constructor
  · intro h
    unfold directionUpdate
    rw [h, if_pos rfl]
  · intro h
    unfold directionUpdate
    rw [h]
    simp only [Bool.false_eq_true, if_false]

/-- Witness for C3: iteration 5 with restart period 5 is a hard
restart. -/
theorem conjugate_direction_update_policy_witness :
    isRestart 5 5 stEx.force_restart = true ∧
    directionUpdate 5 5 dEx stEx = { Z_x := 2, Z_eta := 3, fr := -1, gamma := 1 } :=
  ⟨by simp [isRestart, stEx], by
    rw [(conjugate_direction_update_policy 5 5 dEx stEx).1 (by simp [isRestart, stEx])]
    norm_num [dEx, stEx]⟩

/-- **C6.** If the initial slope — computed from the initial gradients
and the initial conjugate direction, which was just set to the steepest
direction — is nonnegative, both drivers abort with the uncaught throw
of line 127 (resp. 359) before entering the iteration loop: the oracle
`data` is universally quantified and never consulted, so the loop body
never executes. -/
theorem ascending_initial_slope_aborts_before_loop {V : Type}
    (tol : ℚ) (restart maxiter : ℕ) (info0 : nlcg_info) (init : InitData V)
    (data : ℕ → StepData V) (h : 0 ≤ slopeOf (initState info0 init)) :
    nlcg tol restart maxiter info0 init data = RunResult.initAbort ∧
    nlcg_us tol restart maxiter info0 init data = RunResult.initAbort := by
  refine ⟨?_, ?_⟩ <;>
  · show nlcgDriver tol restart maxiter info0 init data = RunResult.initAbort
    unfold nlcgDriver
    rw [if_pos h]

/-- Witness for C6 at a concrete input. -/
theorem ascending_initial_slope_aborts_before_loop_witness :
    0 ≤ slopeOf (initState infoEx initExBad) ∧
    nlcg (1/2 : ℚ) 5 5 infoEx initExBad dataExBase = RunResult.initAbort :=
  ⟨by norm_num [slopeOf, initState, initExBad, initEx],
    (ascending_initial_slope_aborts_before_loop (1/2 : ℚ) 5 5 infoEx initExBad dataExBase
      (by norm_num [slopeOf, initState, initExBad, initEx])).1⟩

/-- **C7.** The iteration loop executes at most `maxiter` iterations:
the whole run is determined by the oracle's values at steps
`1, ..., maxiter` (first conjunct); and when the loop's fuel is
exhausted without the convergence check firing, the run returns the last
computed summary as a normal return value, not an error (second
conjunct, line 232 resp. 479). -/
theorem loop_bounded_by_maxiter_and_normal_return {V : Type}
    (tol : ℚ) (restart maxiter : ℕ) (info0 : nlcg_info) (init : InitData V)
    (d1 d2 data : ℕ → StepData V) (i : ℕ) (st : LoopState V) :
    ((∀ j, 1 ≤ j → j ≤ maxiter → d1 j = d2 j) →
      nlcg tol restart maxiter info0 init d1 = nlcg tol restart maxiter info0 init d2) ∧
    runFrom tol restart data 0 i st = RunResult.maxiterReached st.info := by
  constructor
  · intro h
    show nlcgDriver tol restart maxiter info0 init d1 =
      nlcgDriver tol restart maxiter info0 init d2
    unfold nlcgDriver
    by_cases h0 : 0 ≤ slopeOf (initState info0 init)
    · rw [if_pos h0, if_pos h0]
    · rw [if_neg h0, if_neg h0]
      exact runFrom_congr tol restart d1 d2 maxiter 1 (initState info0 init)
        (fun j hj1 hj2 => h j hj1 (by omega))
  · rfl

/-- Witness for C7: two oracles differing only beyond `maxiter = 2`
yield the same run. -/
theorem loop_bounded_by_maxiter_and_normal_return_witness :
    nlcg (1/2 : ℚ) 5 2 infoEx initEx dataEx1 = nlcg (1/2 : ℚ) 5 2 infoEx initEx dataExBase ∧
    runFrom (1/2 : ℚ) 5 dataEx1 0 1 stEx = RunResult.maxiterReached stEx.info :=
  ⟨(loop_bounded_by_maxiter_and_normal_return (1/2 : ℚ) 5 2 infoEx initEx
      dataEx1 dataExBase dataEx1 1 stEx).1
      (fun j hj1 hj2 => by
        have hj : ¬ j = 3 := by omega
        simp [dataEx1, dataExBase, hj]),
    (loop_bounded_by_maxiter_and_normal_return (1/2 : ℚ) 5 2 infoEx initEx
      dataEx1 dataExBase dataEx1 1 stEx).2⟩

/-- **C8.** If the line search throws `DescentError` during the very
first iteration (and the initial state is a descent point, so the loop
is entered, and the convergence check does not fire), the run returns
exactly the summary value `info0` the run started with — the
default-constructed `nlcg_info` declared at function entry (line 58,
resp. 287), whose fields were never assigned from any computed point:
the result holds for every `info0`, independently of the model
oracles. -/
theorem first_iteration_descent_failure_returns_entry_info {V : Type}
    (tol : ℚ) (restart m : ℕ) (info0 : nlcg_info) (init : InitData V)
    (data : ℕ → StepData V)
    (hdesc : ¬ 0 ≤ slopeOf (initState info0 init))
    (hconv : ¬ |slopeOf (initState info0 init)| < tol)
    (hls : (data 1).lsFails = true) :
    nlcg tol restart (m + 1) info0 init data = RunResult.descentStop info0 ∧
    nlcg_us tol restart (m + 1) info0 init data = RunResult.descentStop info0 := by
  have hrun : runFrom tol restart data (m + 1) 1 (initState info0 init) =
      RunResult.descentStop info0 := by
    rw [runFrom_succ,
      iterStep_descentStop tol restart 1 (data 1) (initState info0 init) hconv hls]
    rfl
  refine ⟨?_, ?_⟩ <;>
  · show nlcgDriver tol restart (m + 1) info0 init data = RunResult.descentStop info0
    unfold nlcgDriver
    rw [if_neg hdesc]
    exact hrun

/-- Witness for C8 at a concrete input. -/
theorem first_iteration_descent_failure_returns_entry_info_witness :
    (¬ 0 ≤ slopeOf (initState infoEx initEx)) ∧ (dataExFail 1).lsFails = true ∧
    nlcg (1/2 : ℚ) 5 3 infoEx initEx dataExFail = RunResult.descentStop infoEx :=
  ⟨by norm_num [slopeOf, initState, initEx], rfl,
    (first_iteration_descent_failure_returns_entry_info (1/2 : ℚ) 5 2 infoEx initEx dataExFail
      (by norm_num [slopeOf, initState, initEx])
      (by norm_num [slopeOf, initState, initEx]) rfl).1⟩

/-- **C9.** Every device-placement entry point
(`nlcg_mvp2_device`, `nlcg_mvp2_device_cpu`, `nlcg_mvp2_cpu_device`,
`nlcg_us_device`, `nlcg_us_device_cpu`, `nlcg_us_cpu_device`) fails
immediately with the configuration error when the CUDA path is not
compiled: the result is the constant error, for every argument bundle
`a`, so no optimization computation begins and the energy model is never
touched. -/
theorem device_entry_points_fail_fast_without_cuda {V : Type} (a : EntryArgs V) :
    nlcg_mvp2_device false a = Except.error ConfigError.cudaNotCompiled ∧
    nlcg_mvp2_device_cpu false a = Except.error ConfigError.cudaNotCompiled ∧
    nlcg_mvp2_cpu_device false a = Except.error ConfigError.cudaNotCompiled ∧
    nlcg_us_device false a = Except.error ConfigError.cudaNotCompiled ∧
    nlcg_us_device_cpu false a = Except.error ConfigError.cudaNotCompiled ∧
    nlcg_us_cpu_device false a = Except.error ConfigError.cudaNotCompiled :=
  ⟨rfl, rfl, rfl, rfl, rfl, rfl⟩

/-- **C10.** Inside the main loop, the occupation field read back through
`get_fn` after an accepted step is re-derived from the updated band
energies by the ultrasoft variant's retraction (`geodesicUsStep`) every
iteration, while the standard variant's retraction (`geodesicStep`)
leaves it at its previous value; the two variants disagree on a concrete
state, so the occupation field feeding `gradX` and `g_eta` after a step
differs between the variants. -/
theorem occupation_refresh_divergence (smear : ℚ → ℚ) (s : PhysState) (ekNew : List ℚ) :
    get_fn (geodesicUsStep smear s ekNew) = List.map smear ekNew ∧
    get_fn (geodesicStep s ekNew) = s.fn ∧
    get_fn (geodesicUsStep smearEx physEx [2]) ≠ get_fn (geodesicStep physEx [2]) :=
  ⟨rfl, rfl, by norm_num [get_fn, geodesicUsStep, geodesicStep, smearEx, physEx]⟩

end Nlcglib
